import Mathlib

/-!
Shallow embedding of the similarity-resolution engine of the Corriente Sound
server (`server.js`, active version: the functions around
`generateIntelligentFeatures`, `calculateSimilarityScore`,
`removeDuplicateTracks` and `findSimilarTracksViaSpotify`, and the
`/api/similar-song` and `/api/recommendations` routes).

JavaScript numbers are modelled as exact rationals (ℚ); the algorithms use
only +, -, *, /, abs, min, max and rounding to three decimals, so ℚ captures
the intended arithmetic.  `Math.min`/`Math.max`/`Math.abs` and
`toLowerCase` are embedded as the executable `jsMin`/`jsMax`/`jsAbs`/
`jsToLower` below (proved equal to Mathlib's `min`/`max`/`|·|`).
`Math.random()` draws are modelled by an explicit random source
`rnd : ℕ → ℚ` (one fixed index per draw site), so every realization of the
jitter corresponds to some `rnd`.  `await fetch(...)` results are modelled
by an environment function from the query string to an outcome (rejected
promise, non-ok response, or an ok response with a list of items).
-/

/-! ### JavaScript primitives -/

/-- Chars-level "starts with": does the second list begin with the first? -/
def charsStart : List Char → List Char → Bool
  | [], _ => true
  | _ :: _, [] => false
  | c :: cs, d :: ds => c == d && charsStart cs ds

/-- Chars-level substring test: does the second list contain the first
anywhere (as a contiguous block)? -/
def charsIncl (pat : List Char) : List Char → Bool
  | [] => charsStart pat []
  | d :: ds => charsStart pat (d :: ds) || charsIncl pat ds

/-- JavaScript `s.includes(pat)`: substring containment (not word-boundary). -/
def jsIncludes (s pat : String) : Bool :=
  charsIncl pat.toList s.toList

/-- JavaScript `s.toLowerCase()` (character-wise lowering; all strings in
this development are ASCII, where the two agree). -/
def jsToLower (s : String) : String :=
  ⟨s.data.map Char.toLower⟩

/-- JavaScript `Math.min` on two numbers. -/
def jsMin (a b : ℚ) : ℚ := if a ≤ b then a else b

/-- JavaScript `Math.max` on two numbers. -/
def jsMax (a b : ℚ) : ℚ := if a ≤ b then b else a

/-- JavaScript `Math.abs`. -/
def jsAbs (x : ℚ) : ℚ := if x < 0 then -x else x

/-- JavaScript `x || d` on numbers: `undefined` and `0` are both falsy and
give the default.  An absent numeric field is embedded as `0`, which `||`
treats exactly like `undefined`. -/
def jsOrNum (x d : ℚ) : ℚ :=
  if x = 0 then d else x

/-- JavaScript `Math.min` on integer counts (used for the `slice` bound). -/
def jsMinInt (a b : ℤ) : ℤ := if a ≤ b then a else b

/-- JavaScript `l.slice(0, e)`: a nonnegative end index truncates, a negative
one counts from the end of the array. -/
def jsSlice0 {α : Type} (e : ℤ) (l : List α) : List α :=
  if 0 ≤ e then l.take e.toNat else l.take (l.length - (-e).toNat)

/-! ### Data model -/

/-- One track as the server sees it in Spotify API payloads.  `artistName` is
`artists[0].name`; `preview_url` is the truthiness of the preview URL field;
`releaseYear` is the leading year of `album.release_date` when that field is
present (`null` otherwise); an absent `popularity`/`duration_ms` is embedded
as `0` (the estimator's `||` defaulting treats the two identically). -/
structure Track where
  id : String
  name : String
  artistName : String
  albumName : String
  releaseYear : Option ℕ
  duration_ms : ℚ
  popularity : ℚ
  explicit : Bool
  preview_url : Bool
  deriving DecidableEq, Repr

/-- The nine numeric fields of the estimated feature vector (the `_source`,
`_confidence` and `_note` metadata tags of the JS object carry no data). -/
structure Features where
  acousticness : ℚ
  danceability : ℚ
  energy : ℚ
  instrumentalness : ℚ
  liveness : ℚ
  loudness : ℚ
  speechiness : ℚ
  tempo : ℚ
  valence : ℚ
  deriving DecidableEq, Repr

/-- A candidate with the `_strategy` and `_similarity` fields that
`findSimilarTracksViaSpotify` attaches to each search hit. -/
structure ScoredTrack where
  track : Track
  strategyLabel : String
  similarity : ℚ
  deriving DecidableEq, Repr

/-- One search strategy: a Spotify query string plus its description. -/
structure SearchStrategy where
  query : String
  description : String
  deriving DecidableEq, Repr

/-- Outcome of one `await fetch(searchUrl)` in the strategy loop: the promise
rejected (caught by the per-strategy `catch`), the response was not ok
(silently skipped), or an ok response whose parsed `tracks.items` is a list
of tracks. -/
inductive FetchOutcome where
  | thrown (msg : String)
  | notOk
  | ok (items : List Track)
  deriving DecidableEq, Repr

/-- Outcome of fetching the seed track in `/api/recommendations`: the fetch
rejected (lands in the route's `catch`), the response was not ok, or the
parsed seed track. -/
inductive SeedFetch where
  | thrown (msg : String)
  | notOk
  | ok (track : Track)
  deriving DecidableEq, Repr

/-- Events of the instrumented strategy loop: a catalog query is issued, a
catalog query completes (successfully or not), ranking starts. -/
inductive QueryEv where
  | issue (query : String)
  | complete (query : String)
  | rank
  deriving DecidableEq, Repr

/-! ### FeatureEstimator: `generateIntelligentFeatures` -/

def energeticWords : List String :=
  ["dance", "party", "pump", "wild", "fire", "electric", "power", "energy", "rock", "metal"]

def chillWords : List String :=
  ["chill", "relax", "calm", "slow", "soft", "gentle", "peace", "quiet", "ambient"]

def sadWords : List String :=
  ["sad", "cry", "tears", "lonely", "hurt", "pain", "goodbye", "miss", "sorry"]

def happyWords : List String :=
  ["happy", "joy", "love", "smile", "sunshine", "bright", "celebration", "party"]

def romanticWords : List String :=
  ["love", "heart", "romance", "kiss", "together", "forever", "beautiful", "baby"]

/-- The keyword, artist, duration and popularity heuristics of
`generateIntelligentFeatures`, applied to the baseline vector.  `rnd 0` is the
`Math.random()` draw of the energetic-words tempo adjustment. -/
def applyHeuristics (trackData : Track) (rnd : ℕ → ℚ) : Features :=
  let trackName := jsToLower trackData.name
  let artistName := jsToLower trackData.artistName
  let popularity := jsOrNum trackData.popularity 50
  let duration := jsOrNum trackData.duration_ms 180000
  let f0 : Features :=
    { acousticness := 0.3, danceability := 0.5, energy := 0.5, instrumentalness := 0.1,
      liveness := 0.1, loudness := -8.0, speechiness := 0.05, tempo := 120, valence := 0.5 }
  let f1 := if energeticWords.any (fun word => jsIncludes trackName word) then
      { f0 with energy := jsMin 0.9 (f0.energy + 0.3),
                danceability := jsMin 0.9 (f0.danceability + 0.2),
                tempo := jsMax f0.tempo (130 + rnd 0 * 40) }
    else f0
  let f2 := if chillWords.any (fun word => jsIncludes trackName word) then
      { f1 with energy := jsMax 0.1 (f1.energy - 0.3),
                acousticness := jsMin 0.8 (f1.acousticness + 0.3),
                tempo := jsMax 70 (f1.tempo - 30) }
    else f1
  let f3 := if sadWords.any (fun word => jsIncludes trackName word) then
      { f2 with valence := jsMax 0.1 (f2.valence - 0.4),
                energy := jsMax 0.2 (f2.energy - 0.2) }
    else f2
  let f4 := if happyWords.any (fun word => jsIncludes trackName word) then
      { f3 with valence := jsMin 0.9 (f3.valence + 0.3),
                energy := jsMin 0.8 (f3.energy + 0.1) }
    else f3
  let f5 := if romanticWords.any (fun word => jsIncludes trackName word) then
      { f4 with valence := jsMin 0.8 (f4.valence + 0.2),
                acousticness := jsMin 0.7 (f4.acousticness + 0.2) }
    else f4
  let f6 := if jsIncludes artistName "dj" || jsIncludes artistName "edm" then
      { f5 with danceability := jsMin 0.9 (f5.danceability + 0.3),
                energy := jsMin 0.9 (f5.energy + 0.2),
                tempo := jsMax f5.tempo 128 }
    else f5
  let f7 := if duration > 300000 then
      { f6 with acousticness := jsMin 0.7 (f6.acousticness + 0.2),
                instrumentalness := jsMin 0.4 (f6.instrumentalness + 0.1) }
    else f6
  let f8 := if popularity > 70 then
      { f7 with danceability := jsMin 0.8 (f7.danceability + 0.1),
                energy := jsMin 0.8 (f7.energy + 0.1) }
    else f7
  f8

/-- One non-tempo jitter step: `Math.max(0, Math.min(1, x + (r - 0.5) * 0.1))`. -/
def jitter01 (x r : ℚ) : ℚ := jsMax 0 (jsMin 1 (x + (r - 0.5) * 0.1))

/-- The tempo jitter step: `Math.max(60, Math.min(200, x + (r - 0.5) * 10))`. -/
def jitterTempo (x r : ℚ) : ℚ := jsMax 60 (jsMin 200 (x + (r - 0.5) * 10))

/-- The controlled-randomness loop over `Object.keys(features)` (insertion
order: acousticness, danceability, energy, instrumentalness, liveness,
loudness, speechiness, tempo, valence); the draw for the field at position
`i` of that order is `rnd (i+1)`. -/
def jitterAll (f : Features) (rnd : ℕ → ℚ) : Features :=
  { acousticness := jitter01 f.acousticness (rnd 1),
    danceability := jitter01 f.danceability (rnd 2),
    energy := jitter01 f.energy (rnd 3),
    instrumentalness := jitter01 f.instrumentalness (rnd 4),
    liveness := jitter01 f.liveness (rnd 5),
    loudness := jitter01 f.loudness (rnd 6),
    speechiness := jitter01 f.speechiness (rnd 7),
    tempo := jitterTempo f.tempo (rnd 8),
    valence := jitter01 f.valence (rnd 9) }

/-- The rounding step `Math.round(x * 1000) / 1000` (JS `Math.round` is `⌊x + 1/2⌋`, which is
Mathlib's `round`). -/
def round3 (x : ℚ) : ℚ := (round (x * 1000) : ℤ) / 1000

/-- The final rounding loop of `generateIntelligentFeatures`. -/
def roundAll (f : Features) : Features :=
  { acousticness := round3 f.acousticness,
    danceability := round3 f.danceability,
    energy := round3 f.energy,
    instrumentalness := round3 f.instrumentalness,
    liveness := round3 f.liveness,
    loudness := round3 f.loudness,
    speechiness := round3 f.speechiness,
    tempo := round3 f.tempo,
    valence := round3 f.valence }

/-- Source `generateIntelligentFeatures(trackData)`: heuristics, then jitter, then
rounding, exactly in the source's phase order. -/
def generateIntelligentFeatures (trackData : Track) (rnd : ℕ → ℚ) : Features :=
  roundAll (jitterAll (applyHeuristics trackData rnd) rnd)

/-- Source `getIntelligentFeatures(trackData)`: same vector with the metadata tags
stripped; our `Features` carries only the nine numeric fields already. -/
def getIntelligentFeatures (trackData : Track) (rnd : ℕ → ℚ) : Features :=
  generateIntelligentFeatures trackData rnd

/-! ### Genre and keywords from features -/

/-- Source `getGenreFromFeatures(features)`. -/
def getGenreFromFeatures (features : Features) : String :=
  if features.energy > 0.8 ∧ features.danceability > 0.7 then "electronic dance"
  else if features.energy > 0.7 ∧ features.tempo > 140 then "rock"
  else if features.acousticness > 0.6 then "folk"
  else if features.danceability > 0.7 then "pop"
  else if features.valence < 0.3 then "indie"
  else if features.energy < 0.4 then "ambient"
  else "pop"

/-- Source `getFeatureKeywords(features)`. -/
def getFeatureKeywords (features : Features) : List String :=
  let keywords : List String := []
  let keywords := if features.energy > 0.7 then
      keywords ++ ["energetic", "upbeat", "powerful"] else keywords
  let keywords := if features.energy < 0.3 then
      keywords ++ ["calm", "mellow", "peaceful"] else keywords
  let keywords := if features.danceability > 0.7 then
      keywords ++ ["danceable", "groovy", "rhythm"] else keywords
  let keywords := if features.danceability < 0.3 then
      keywords ++ ["contemplative", "thoughtful"] else keywords
  let keywords := if features.valence > 0.7 then
      keywords ++ ["happy", "joyful", "cheerful"] else keywords
  let keywords := if features.valence < 0.3 then
      keywords ++ ["melancholy", "emotional", "introspective"] else keywords
  let keywords := if features.acousticness > 0.6 then
      keywords ++ ["acoustic", "unplugged", "intimate"] else keywords
  let keywords := if features.acousticness < 0.2 then
      keywords ++ ["electric", "produced", "synthetic"] else keywords
  let keywords := if features.tempo > 140 then
      keywords ++ ["fast", "driving"] else keywords
  let keywords := if features.tempo < 80 then
      keywords ++ ["slow", "ballad"] else keywords
  if keywords.length > 0 then keywords else ["similar", "like"]

/-! ### Scoring: `calculateSimilarityScore` -/

/-- Source `calculateSimilarityScore(targetFeatures, candidateTrack, originalTrack)`,
exactly the source's sequence of adjustments (the `targetFeatures` parameter
is accepted but never read, as in the source). -/
def calculateSimilarityScore (targetFeatures : Features)
    (candidateTrack originalTrack : Track) : ℚ :=
  let score : ℚ := 1.0
  let score := if jsToLower candidateTrack.artistName = jsToLower originalTrack.artistName
    then score - 0.3 else score
  let popularityDiff := jsAbs (candidateTrack.popularity - originalTrack.popularity) / 100
  let score := score - popularityDiff * 0.1
  let durationDiff :=
    jsAbs (candidateTrack.duration_ms - originalTrack.duration_ms) / originalTrack.duration_ms
  let score := score - jsMin durationDiff 0.5 * 0.1
  let score := if candidateTrack.preview_url then score + 0.1 else score
  let score := if originalTrack.explicit = candidateTrack.explicit then score + 0.05 else score
  jsMax 0 score

/-- The similarity formula exactly as the spec words it (with the cap
`min(|popularity_diff|/100, 1)`), for comparison against the source's
`calculateSimilarityScore`. -/
def claimSimilarityScore (candidateTrack originalTrack : Track) : ℚ :=
  max 0 ((1 : ℚ)
    - (if jsToLower candidateTrack.artistName = jsToLower originalTrack.artistName
        then 0.3 else 0)
    - min (|candidateTrack.popularity - originalTrack.popularity| / 100) 1 * 0.1
    - min (|candidateTrack.duration_ms - originalTrack.duration_ms| / originalTrack.duration_ms)
        0.5 * 0.1
    + (if candidateTrack.preview_url then 0.1 else 0)
    + (if originalTrack.explicit = candidateTrack.explicit then 0.05 else 0))

/-! ### Deduplication: `removeDuplicateTracks` -/

/-- The dedup key: `` `${track.name.toLowerCase()}-${track.artists[0].name.toLowerCase()}` ``. -/
def dedupKey (t : ScoredTrack) : String :=
  jsToLower t.track.name ++ "-" ++ jsToLower t.track.artistName

/-- The `filter` over a growing `seen` set, written as explicit recursion
(the JS `Set` is modelled as the list of keys inserted so far). -/
def removeDupAux (seen : List String) : List ScoredTrack → List ScoredTrack
  | [] => []
  | t :: ts =>
      if dedupKey t ∈ seen then removeDupAux seen ts
      else t :: removeDupAux (dedupKey t :: seen) ts

/-- Source `removeDuplicateTracks(tracks)`. -/
def removeDuplicateTracks (tracks : List ScoredTrack) : List ScoredTrack :=
  removeDupAux [] tracks

/-! ### Ranking: `.sort((a, b) => b._similarity - a._similarity)`

`Array.prototype.sort` is stable (ES2019), and a stable sort with respect to
a total preorder is extensionally unique, so the JS sort is embedded as the
stable insertion sort below: an element is inserted after every strictly
greater similarity and before the first element whose similarity is not
strictly greater (so earlier elements win ties). -/

def insertBySimilarity (t : ScoredTrack) : List ScoredTrack → List ScoredTrack
  | [] => [t]
  | u :: us =>
      if t.similarity < u.similarity then u :: insertBySimilarity t us
      else t :: u :: us

def sortBySimilarityDesc (l : List ScoredTrack) : List ScoredTrack :=
  l.foldr insertBySimilarity []

/-- The tie-break ordering the spec claims for the ranking: score descending,
then strategy priority of origin (via an ordinal assignment `prio` on
strategy labels), then candidate identifier ascending (lexicographically on
its characters, which for ASCII identifiers is JS string comparison). -/
def claimRankOrder (prio : String → ℕ) (a b : ScoredTrack) : Prop :=
  b.similarity < a.similarity ∨
    (a.similarity = b.similarity ∧
      (prio a.strategyLabel < prio b.strategyLabel ∨
        (prio a.strategyLabel = prio b.strategyLabel ∧ a.track.id.data ≤ b.track.id.data)))

/-! ### Strategy generation and aggregation: `findSimilarTracksViaSpotify` -/

/-- The five search strategies (the decade strategy's `query` is `null` when
no release date is known, and `null` entries are filtered out — embedded by
emitting the entry conditionally). -/
def searchStrategies (originalTrack : Track) (audioFeatures : Features) :
    List SearchStrategy :=
  let artistName := originalTrack.artistName
  let trackName := originalTrack.name
  let albumName := originalTrack.albumName
  let strategy1 : SearchStrategy :=
    { query := "genre:\"" ++ getGenreFromFeatures audioFeatures
        ++ "\" NOT artist:\"" ++ artistName ++ "\"",
      description := "Similar genre, different artist" }
  let strategy2 : SearchStrategy :=
    { query := "artist:\"" ++ artistName ++ "\" NOT track:\"" ++ trackName ++ "\"",
      description := "Same artist, different song" }
  let strategy3 : SearchStrategy :=
    { query := String.intercalate " OR " (getFeatureKeywords audioFeatures)
        ++ " NOT artist:\"" ++ artistName ++ "\"",
      description := "Feature-based keywords" }
  let strategy4 : List SearchStrategy :=
    match originalTrack.releaseYear with
    | some releaseYear =>
        [{ query := "year:" ++ toString (releaseYear / 10 * 10) ++ "-"
              ++ toString (releaseYear / 10 * 10 + 9)
              ++ " NOT artist:\"" ++ artistName ++ "\"",
           description := "Same decade" }]
    | none => []
  let strategy5 : SearchStrategy :=
    { query := "album:\"" ++ albumName ++ "\" NOT track:\"" ++ trackName ++ "\"",
      description := "Same album" }
  [strategy1, strategy2, strategy3] ++ strategy4 ++ [strategy5]

/-- The body of the per-strategy loop iteration: a rejected fetch is caught,
a non-ok response is skipped, an ok response's items are filtered by seed
identifier, tagged with the strategy description and scored, then appended
to the accumulated candidates. -/
def strategyStep (originalTrack : Track) (audioFeatures : Features)
    (fetch : String → FetchOutcome)
    (allCandidates : List ScoredTrack) (strategy : SearchStrategy) : List ScoredTrack :=
  match fetch strategy.query with
  | .thrown _ => allCandidates
  | .notOk => allCandidates
  | .ok items =>
      let tracks := items.filter (fun track => track.id != originalTrack.id)
      allCandidates ++ tracks.map (fun track =>
        { track := track, strategyLabel := strategy.description,
          similarity := calculateSimilarityScore audioFeatures track originalTrack })

/-- Source `findSimilarTracksViaSpotify(originalTrack, audioFeatures, token)`: run
the strategies in order, collect candidates, deduplicate, sort by similarity
descending, return the first 10. -/
def findSimilarTracksViaSpotify (originalTrack : Track) (audioFeatures : Features)
    (fetch : String → FetchOutcome) : List ScoredTrack :=
  let strategies := searchStrategies originalTrack audioFeatures
  let allCandidates :=
    strategies.foldl (strategyStep originalTrack audioFeatures fetch) []
  let uniqueCandidates := removeDuplicateTracks allCandidates
  let sortedCandidates := sortBySimilarityDesc uniqueCandidates
  sortedCandidates.take 10

/-! ### Instrumented strategy loop (event trace) -/

/-- The loop iteration instrumented with events: the query is issued, the
`await` returns (or throws) — completing the query — and only then does the
next iteration start. -/
def strategyStepT (originalTrack : Track) (audioFeatures : Features)
    (fetch : String → FetchOutcome)
    (acc : List QueryEv × List ScoredTrack) (strategy : SearchStrategy) :
    List QueryEv × List ScoredTrack :=
  (acc.1 ++ [QueryEv.issue strategy.query, QueryEv.complete strategy.query],
    strategyStep originalTrack audioFeatures fetch acc.2 strategy)

/-- Source `findSimilarTracksViaSpotify` with its event trace: the sequential `for
... of` loop followed by the ranking step. -/
def findSimilarTracksTrace (originalTrack : Track) (audioFeatures : Features)
    (fetch : String → FetchOutcome) : List QueryEv × List ScoredTrack :=
  let strategies := searchStrategies originalTrack audioFeatures
  let r := strategies.foldl (strategyStepT originalTrack audioFeatures fetch) ([], [])
  (r.1 ++ [QueryEv.rank],
    (sortBySimilarityDesc (removeDuplicateTracks r.2)).take 10)

def isIssueEv : QueryEv → Bool
  | .issue _ => true
  | _ => false

/-- A trace is fan-out/fan-in shaped when every issue event precedes every
completion event: after the leading block of issues, no issue occurs. -/
def issuesAllFirst (tr : List QueryEv) : Bool :=
  !((tr.dropWhile isIssueEv).any isIssueEv)

/-! ### Routes -/

/-- Route `/api/similar-song/:trackId`: a failed seed fetch (rejected promise or
non-ok response, both of which throw) yields the route's 500 error; otherwise
the route estimates features, runs the strategy search, and answers with the
top 5 matches (an empty list when nothing was found). -/
def similarSongRoute (rnd : ℕ → ℚ) (seedResult : Except String Track)
    (fetch : String → FetchOutcome) : Except String (List ScoredTrack) :=
  match seedResult with
  | .error e => .error e
  | .ok originalTrack =>
      let audioFeatures := getIntelligentFeatures originalTrack rnd
      let similarTracks := findSimilarTracksViaSpotify originalTrack audioFeatures fetch
      .ok (if similarTracks.length > 0 then similarTracks.take 5 else [])

/-- Route `/api/recommendations`: missing `seed_tracks` is a 400 error; a thrown
seed fetch lands in the catch (500); a non-ok seed response answers `[]`;
otherwise the route runs the similarity pipeline and answers
`similarTracks.slice(0, Math.min(limit, similarTracks.length))`.  No
validation of `limit` is performed anywhere. -/
def recommendationsRoute (rnd : ℕ → ℚ) (seed_tracks : Option String) (limit : ℤ)
    (seedFetch : SeedFetch) (fetch : String → FetchOutcome) :
    Except String (List ScoredTrack) :=
  match seed_tracks with
  | none => .error "seed_tracks parameter required"
  | some _ =>
      match seedFetch with
      | .thrown _ => .error "Failed to get recommendations"
      | .notOk => .ok []
      | .ok trackData =>
          let audioFeatures := getIntelligentFeatures trackData rnd
          let similarTracks := findSimilarTracksViaSpotify trackData audioFeatures fetch
          .ok (jsSlice0 (jsMinInt limit (similarTracks.length : ℤ)) similarTracks)

/-! ### Concrete inputs used to instantiate the claim theorems -/

/-- A concrete seed track. -/
def trackEx0 : Track :=
  { id := "seed0", name := "Quiet Song", artistName := "Some Artist",
    albumName := "Some Album", releaseYear := some 1999,
    duration_ms := 200000, popularity := 50,
    explicit := false, preview_url := false }

/-- A candidate track differing from `trackEx0` in artist and popularity. -/
def candEx2 : Track :=
  { id := "cand2", name := "Another Song", artistName := "Other Artist",
    albumName := "Other Album", releaseYear := some 2001,
    duration_ms := 210000, popularity := 60,
    explicit := false, preview_url := true }

/-- A candidate maximizing the score against `trackEx0`: different artist,
equal popularity and duration, a playable preview, matching explicit flag. -/
def candEx3 : Track :=
  { id := "cand3", name := "Best Match", artistName := "Other Artist",
    albumName := "Other Album", releaseYear := some 2001,
    duration_ms := 200000, popularity := 50,
    explicit := false, preview_url := true }

/-- A fixed feature vector for instantiating feature-vector arguments. -/
def featEx : Features :=
  { acousticness := 0.3, danceability := 0.5, energy := 0.5, instrumentalness := 0.1,
    liveness := 0.1, loudness := 0, speechiness := 0.05, tempo := 120, valence := 0.5 }

/-- A non-seed candidate returned by the stub catalog. -/
def candW : Track :=
  { id := "cand-w", name := "Match Song", artistName := "Match Artist",
    albumName := "Match Album", releaseYear := some 2002,
    duration_ms := 200000, popularity := 50,
    explicit := false, preview_url := false }

/-- The scored candidate that survives deduplication when every strategy
returns `candW`: the copy from the first (highest-priority) strategy. -/
def stW : ScoredTrack :=
  { track := candW, strategyLabel := "Similar genre, different artist",
    similarity := calculateSimilarityScore featEx candW trackEx0 }

/-- Two scored candidates with equal similarity, distinct dedup keys, and
identifiers ordered against their input order. -/
def cA5 : ScoredTrack :=
  { track := { id := "a", name := "Song A", artistName := "Artist A",
               albumName := "Album", releaseYear := none, duration_ms := 200000,
               popularity := 50, explicit := false, preview_url := false },
    strategyLabel := "Similar genre, different artist", similarity := 1/2 }

def cB5 : ScoredTrack :=
  { track := { id := "b", name := "Song B", artistName := "Artist B",
               albumName := "Album", releaseYear := none, duration_ms := 200000,
               popularity := 50, explicit := false, preview_url := false },
    strategyLabel := "Similar genre, different artist", similarity := 1/2 }

/-- A stub catalog client: every strategy query answers ok with the single
candidate `candW`. -/
def fetchW : String → FetchOutcome := fun _ => .ok [candW]

/-! ### Bridges from the JS primitives to Mathlib's order operations -/

theorem jsMin_eq (a b : ℚ) : jsMin a b = min a b := by
  unfold jsMin
  split_ifs with h
  · exact (min_eq_left h).symm
  · exact (min_eq_right (le_of_not_le h)).symm

theorem jsMax_eq (a b : ℚ) : jsMax a b = max a b := by
  unfold jsMax
  split_ifs with h
  · exact (max_eq_right h).symm
  · exact (max_eq_left (le_of_not_le h)).symm

theorem jsAbs_eq (x : ℚ) : jsAbs x = |x| := by
  unfold jsAbs
  split_ifs with h
  · exact (abs_of_neg h).symm
  · exact (abs_of_nonneg (le_of_not_lt h)).symm

/-! ### Bounds lemmas for the estimator -/

theorem round_mono_q {x y : ℚ} (h : x ≤ y) : round x ≤ round y := by
  rw [round_eq, round_eq]
  exact Int.floor_mono (by linarith)

theorem round3_ge_int {n : ℤ} {x : ℚ} (h : (n : ℚ) ≤ x) : (n : ℚ) ≤ round3 x := by
  unfold round3
  have h1 : ((n * 1000 : ℤ) : ℚ) ≤ x * 1000 := by push_cast; nlinarith
  have h2 : (n * 1000 : ℤ) ≤ round (x * 1000) := by
    have := round_mono_q h1
    rwa [round_intCast] at this
  rw [le_div_iff₀ (by norm_num : (0:ℚ) < 1000)]
  calc (n : ℚ) * 1000 = ((n * 1000 : ℤ) : ℚ) := by push_cast; ring
    _ ≤ ((round (x * 1000) : ℤ) : ℚ) := by exact_mod_cast h2

theorem round3_le_int {n : ℤ} {x : ℚ} (h : x ≤ (n : ℚ)) : round3 x ≤ (n : ℚ) := by
  unfold round3
  have h1 : x * 1000 ≤ ((n * 1000 : ℤ) : ℚ) := by push_cast; nlinarith
  have h2 : round (x * 1000) ≤ (n * 1000 : ℤ) := by
    have := round_mono_q h1
    rwa [round_intCast] at this
  rw [div_le_iff₀ (by norm_num : (0:ℚ) < 1000)]
  calc ((round (x * 1000) : ℤ) : ℚ) ≤ ((n * 1000 : ℤ) : ℚ) := by exact_mod_cast h2
    _ = (n : ℚ) * 1000 := by push_cast; ring

theorem jitter01_nonneg (x r : ℚ) : 0 ≤ jitter01 x r := by
  rw [jitter01, jsMax_eq]
  exact le_max_left 0 _

theorem jitter01_le_one (x r : ℚ) : jitter01 x r ≤ 1 := by
  rw [jitter01, jsMax_eq, jsMin_eq]
  exact max_le (by norm_num) (min_le_left 1 _)

theorem jitterTempo_ge (x r : ℚ) : 60 ≤ jitterTempo x r := by
  rw [jitterTempo, jsMax_eq]
  exact le_max_left 60 _

theorem jitterTempo_le (x r : ℚ) : jitterTempo x r ≤ 200 := by
  rw [jitterTempo, jsMax_eq, jsMin_eq]
  exact max_le (by norm_num) (min_le_left 200 _)

theorem round3_mem01 {x : ℚ} (h0 : 0 ≤ x) (h1 : x ≤ 1) :
    0 ≤ round3 x ∧ round3 x ≤ 1 := by
  constructor
  · have := round3_ge_int (n := 0) (x := x) (by exact_mod_cast h0)
    exact_mod_cast this
  · have := round3_le_int (n := 1) (x := x) (by exact_mod_cast h1)
    exact_mod_cast this

theorem round3_mem_tempo {x : ℚ} (h0 : 60 ≤ x) (h1 : x ≤ 200) :
    60 ≤ round3 x ∧ round3 x ≤ 200 := by
  constructor
  · have := round3_ge_int (n := 60) (x := x) (by exact_mod_cast h0)
    exact_mod_cast this
  · have := round3_le_int (n := 200) (x := x) (by exact_mod_cast h1)
    exact_mod_cast this

theorem gif_acousticness (t : Track) (rnd : ℕ → ℚ) :
    (generateIntelligentFeatures t rnd).acousticness =
      round3 (jitter01 (applyHeuristics t rnd).acousticness (rnd 1)) := rfl

theorem gif_danceability (t : Track) (rnd : ℕ → ℚ) :
    (generateIntelligentFeatures t rnd).danceability =
      round3 (jitter01 (applyHeuristics t rnd).danceability (rnd 2)) := rfl

theorem gif_energy (t : Track) (rnd : ℕ → ℚ) :
    (generateIntelligentFeatures t rnd).energy =
      round3 (jitter01 (applyHeuristics t rnd).energy (rnd 3)) := rfl

theorem gif_instrumentalness (t : Track) (rnd : ℕ → ℚ) :
    (generateIntelligentFeatures t rnd).instrumentalness =
      round3 (jitter01 (applyHeuristics t rnd).instrumentalness (rnd 4)) := rfl

theorem gif_liveness (t : Track) (rnd : ℕ → ℚ) :
    (generateIntelligentFeatures t rnd).liveness =
      round3 (jitter01 (applyHeuristics t rnd).liveness (rnd 5)) := rfl

theorem gif_loudness (t : Track) (rnd : ℕ → ℚ) :
    (generateIntelligentFeatures t rnd).loudness =
      round3 (jitter01 (applyHeuristics t rnd).loudness (rnd 6)) := rfl

theorem gif_speechiness (t : Track) (rnd : ℕ → ℚ) :
    (generateIntelligentFeatures t rnd).speechiness =
      round3 (jitter01 (applyHeuristics t rnd).speechiness (rnd 7)) := rfl

theorem gif_tempo (t : Track) (rnd : ℕ → ℚ) :
    (generateIntelligentFeatures t rnd).tempo =
      round3 (jitterTempo (applyHeuristics t rnd).tempo (rnd 8)) := rfl

theorem gif_valence (t : Track) (rnd : ℕ → ℚ) :
    (generateIntelligentFeatures t rnd).valence =
      round3 (jitter01 (applyHeuristics t rnd).valence (rnd 9)) := rfl

/-- Claim C1: for every input track (missing optional fields included) and
every realization of the random jitter, the feature vector returned by
`generateIntelligentFeatures` has each of acousticness, danceability, energy,
instrumentalness, liveness, speechiness and valence in [0,1] and tempo in
[60,200]. -/
theorem C1_generateIntelligentFeatures_bounds (trackData : Track) (rnd : ℕ → ℚ) :
    (0 ≤ (generateIntelligentFeatures trackData rnd).acousticness ∧
      (generateIntelligentFeatures trackData rnd).acousticness ≤ 1) ∧
    (0 ≤ (generateIntelligentFeatures trackData rnd).danceability ∧
      (generateIntelligentFeatures trackData rnd).danceability ≤ 1) ∧
    (0 ≤ (generateIntelligentFeatures trackData rnd).energy ∧
      (generateIntelligentFeatures trackData rnd).energy ≤ 1) ∧
    (0 ≤ (generateIntelligentFeatures trackData rnd).instrumentalness ∧
      (generateIntelligentFeatures trackData rnd).instrumentalness ≤ 1) ∧
    (0 ≤ (generateIntelligentFeatures trackData rnd).liveness ∧
      (generateIntelligentFeatures trackData rnd).liveness ≤ 1) ∧
    (0 ≤ (generateIntelligentFeatures trackData rnd).speechiness ∧
      (generateIntelligentFeatures trackData rnd).speechiness ≤ 1) ∧
    (0 ≤ (generateIntelligentFeatures trackData rnd).valence ∧
      (generateIntelligentFeatures trackData rnd).valence ≤ 1) ∧
    (60 ≤ (generateIntelligentFeatures trackData rnd).tempo ∧
      (generateIntelligentFeatures trackData rnd).tempo ≤ 200) := by
  rw [gif_acousticness, gif_danceability, gif_energy, gif_instrumentalness,
    gif_liveness, gif_speechiness, gif_valence, gif_tempo]
  exact ⟨round3_mem01 (jitter01_nonneg _ _) (jitter01_le_one _ _),
    round3_mem01 (jitter01_nonneg _ _) (jitter01_le_one _ _),
    round3_mem01 (jitter01_nonneg _ _) (jitter01_le_one _ _),
    round3_mem01 (jitter01_nonneg _ _) (jitter01_le_one _ _),
    round3_mem01 (jitter01_nonneg _ _) (jitter01_le_one _ _),
    round3_mem01 (jitter01_nonneg _ _) (jitter01_le_one _ _),
    round3_mem01 (jitter01_nonneg _ _) (jitter01_le_one _ _),
    round3_mem_tempo (jitterTempo_ge _ _) (jitterTempo_le _ _)⟩

/-! ### The loudness field (Claim C10) -/

theorem applyHeuristics_loudness (t : Track) (rnd : ℕ → ℚ) :
    (applyHeuristics t rnd).loudness = -8.0 := by
  simp only [applyHeuristics, apply_ite Features.loudness, ite_self]

theorem round3_zero : round3 0 = 0 := by
  norm_num [round3]

theorem jitter01_neg8 {r : ℚ} (h0 : 0 ≤ r) (h1 : r < 1) : jitter01 (-8.0) r = 0 := by
  rw [jitter01, jsMax_eq, jsMin_eq]
  have hv : -8.0 + (r - 0.5) * 0.1 ≤ 0 := by norm_num; linarith
  rw [min_eq_right (by linarith), max_eq_left hv]

/-- Claim C10 (implicit): the loudness baseline of `-8.0` is never adjusted
by any heuristic, and the jitter step clamps loudness — like every other
non-tempo field — into [0,1] before rounding, so for every input track and
every realization of the `Math.random()` jitter (a value in [0,1)) the
returned loudness equals exactly 0; the spec's dB range of values in
[-60,0) is never produced. -/
theorem C10_loudness_always_zero (trackData : Track) (rnd : ℕ → ℚ) :
    (applyHeuristics trackData rnd).loudness = -8.0 ∧
    (0 ≤ rnd 6 → rnd 6 < 1 →
      (generateIntelligentFeatures trackData rnd).loudness = 0) := by
  refine ⟨applyHeuristics_loudness trackData rnd, fun h0 h1 => ?_⟩
  rw [gif_loudness, applyHeuristics_loudness, jitter01_neg8 h0 h1, round3_zero]

theorem C10_loudness_always_zero_witness :
    ((0:ℚ) ≤ (1:ℚ)/2 ∧ ((1:ℚ)/2) < 1) ∧
    (generateIntelligentFeatures trackEx0 (fun _ => (1:ℚ)/2)).loudness = 0 :=
  ⟨⟨by norm_num, by norm_num⟩,
    (C10_loudness_always_zero trackEx0 (fun _ => (1:ℚ)/2)).2 (by norm_num) (by norm_num)⟩

/-! ### Claims C2 and C3: the similarity score -/

/-- Claim C2: for candidate and seed tracks (with popularity in the catalog's
range [0,100], where the spec's `min(|popularity_diff|/100, 1)` cap cannot
bite), the computed similarity score equals the spec's formula: 1.0, minus
0.3 for a case-insensitive primary-artist match, minus the capped popularity
and duration penalties, plus 0.1 for a playable preview, plus 0.05 for a
matching explicit flag, floored at 0. -/
theorem C2_similarity_formula (targetFeatures : Features) (c o : Track)
    (hc0 : 0 ≤ c.popularity) (hc1 : c.popularity ≤ 100)
    (ho0 : 0 ≤ o.popularity) (ho1 : o.popularity ≤ 100) :
    calculateSimilarityScore targetFeatures c o = claimSimilarityScore c o := by
  have habs : |c.popularity - o.popularity| ≤ 100 := by
    rw [abs_le]; constructor <;> linarith
  have hmin : min (|c.popularity - o.popularity| / 100) 1
      = |c.popularity - o.popularity| / 100 :=
    min_eq_left ((div_le_one (by norm_num)).mpr habs)
  simp only [calculateSimilarityScore, claimSimilarityScore, jsAbs_eq, jsMin_eq,
    jsMax_eq, hmin]
  split_ifs <;> (congr 1 <;> ring)

theorem C2_similarity_formula_witness :
    ((0:ℚ) ≤ candEx2.popularity ∧ candEx2.popularity ≤ 100 ∧
      (0:ℚ) ≤ trackEx0.popularity ∧ trackEx0.popularity ≤ 100) ∧
    calculateSimilarityScore featEx candEx2 trackEx0 = claimSimilarityScore candEx2 trackEx0 :=
  ⟨⟨by norm_num [candEx2], by norm_num [candEx2], by norm_num [trackEx0], by norm_num [trackEx0]⟩,
    C2_similarity_formula featEx candEx2 trackEx0 (by norm_num [candEx2])
      (by norm_num [candEx2]) (by norm_num [trackEx0]) (by norm_num [trackEx0])⟩

/-- Counterexample to Claim C3: at this concrete candidate/seed pair (all
penalties zero, preview available, explicit flags matching) the similarity
score is 1.15, strictly above 1, so the score does not lie in [0,1]. -/
theorem C3_counterexample : 1 < calculateSimilarityScore featEx candEx3 trackEx0 := by
  have hart : ¬ (jsToLower "Other Artist" = jsToLower "Some Artist") := by decide
  simp only [calculateSimilarityScore, candEx3, trackEx0, if_neg hart]
  norm_num [jsAbs, jsMin, jsMax]

/-- Claim C3, amended: for candidate and seed tracks with popularity in
[0,100] and positive seed duration, the similarity score lies in [0, 1.15]
(the preview bonus 0.1 and the explicit-match bonus 0.05 can push a
perfect score above 1; the lower bound 0 holds as claimed). -/
theorem C3_amended_score_bounds (targetFeatures : Features) (c o : Track)
    (hc0 : 0 ≤ c.popularity) (hc1 : c.popularity ≤ 100)
    (ho0 : 0 ≤ o.popularity) (ho1 : o.popularity ≤ 100)
    (hd : 0 < o.duration_ms) :
    0 ≤ calculateSimilarityScore targetFeatures c o ∧
      calculateSimilarityScore targetFeatures c o ≤ 1.15 := by
  constructor
  · simp only [calculateSimilarityScore, jsMax_eq]
    exact le_max_left 0 _
  · simp only [calculateSimilarityScore, jsAbs_eq, jsMin_eq, jsMax_eq]
    have h1 : 0 ≤ |c.popularity - o.popularity| / 100 * 0.1 := by positivity
    have h2 : 0 ≤ min (|c.duration_ms - o.duration_ms| / o.duration_ms) 0.5 * 0.1 := by
      have hq : 0 ≤ |c.duration_ms - o.duration_ms| / o.duration_ms :=
        div_nonneg (abs_nonneg _) hd.le
      have hm : 0 ≤ min (|c.duration_ms - o.duration_ms| / o.duration_ms) 0.5 :=
        le_min hq (by norm_num)
      nlinarith [hm]
    split_ifs <;> exact max_le (by norm_num) (by linarith)

theorem C3_amended_score_bounds_witness :
    (((0:ℚ) ≤ candEx3.popularity ∧ candEx3.popularity ≤ 100 ∧
        (0:ℚ) ≤ trackEx0.popularity ∧ trackEx0.popularity ≤ 100 ∧
        (0:ℚ) < trackEx0.duration_ms) ∧
      0 ≤ calculateSimilarityScore featEx candEx3 trackEx0 ∧
        calculateSimilarityScore featEx candEx3 trackEx0 ≤ 1.15) :=
  ⟨⟨by norm_num [candEx3], by norm_num [candEx3], by norm_num [trackEx0],
      by norm_num [trackEx0], by norm_num [trackEx0]⟩,
    C3_amended_score_bounds featEx candEx3 trackEx0 (by norm_num [candEx3])
      (by norm_num [candEx3]) (by norm_num [trackEx0]) (by norm_num [trackEx0])
      (by norm_num [trackEx0])⟩

/-! ### Claim C4: deduplication -/

theorem removeDupAux_sublist (seen : List String) (l : List ScoredTrack) :
    (removeDupAux seen l).Sublist l := by
  induction l generalizing seen with
  | nil => simp [removeDupAux]
  | cons t ts ih =>
    by_cases h : dedupKey t ∈ seen
    · simp only [removeDupAux, if_pos h]
      exact (ih seen).cons t
    · simp only [removeDupAux, if_neg h]
      exact (ih (dedupKey t :: seen)).cons₂ t

theorem removeDupAux_key_not_seen {seen : List String} {l : List ScoredTrack}
    {t : ScoredTrack} (ht : t ∈ removeDupAux seen l) : dedupKey t ∉ seen := by
  induction l generalizing seen with
  | nil => simp [removeDupAux] at ht
  | cons u us ih =>
    by_cases h : dedupKey u ∈ seen
    · rw [removeDupAux, if_pos h] at ht
      exact ih ht
    · rw [removeDupAux, if_neg h] at ht
      rcases List.mem_cons.mp ht with rfl | ht2
      · exact h
      · intro hseen
        exact (ih ht2) (List.mem_cons_of_mem _ hseen)

theorem removeDupAux_pairwise (seen : List String) (l : List ScoredTrack) :
    (removeDupAux seen l).Pairwise (fun a b => dedupKey a ≠ dedupKey b) := by
  induction l generalizing seen with
  | nil => simp [removeDupAux]
  | cons u us ih =>
    by_cases h : dedupKey u ∈ seen
    · rw [removeDupAux, if_pos h]
      exact ih seen
    · rw [removeDupAux, if_neg h]
      refine List.Pairwise.cons ?_ (ih _)
      intro b hb hEq
      have hnot := removeDupAux_key_not_seen hb
      exact hnot (by rw [← hEq]; exact List.mem_cons_self _ _)

theorem removeDupAux_complete {seen : List String} {l : List ScoredTrack}
    {t : ScoredTrack} (ht : t ∈ l) (hns : dedupKey t ∉ seen) :
    ∃ u ∈ removeDupAux seen l, dedupKey u = dedupKey t := by
  induction l generalizing seen with
  | nil => simp at ht
  | cons u us ih =>
    by_cases h : dedupKey u ∈ seen
    · rw [removeDupAux, if_pos h]
      rcases List.mem_cons.mp ht with rfl | ht2
      · exact absurd h hns
      · exact ih ht2 hns
    · rw [removeDupAux, if_neg h]
      by_cases hk : dedupKey t = dedupKey u
      · exact ⟨u, List.mem_cons_self _ _, hk.symm⟩
      · rcases List.mem_cons.mp ht with rfl | ht2
        · exact absurd rfl hk
        · obtain ⟨v, hv, hkv⟩ := ih ht2 (by
            intro hmem
            rcases List.mem_cons.mp hmem with h1 | h2
            · exact hk h1
            · exact hns h2)
          exact ⟨v, List.mem_cons_of_mem _ hv, hkv⟩

theorem removeDupAux_first {seen : List String} {l : List ScoredTrack}
    {u : ScoredTrack} (hu : u ∈ removeDupAux seen l) :
    l.find? (fun t => dedupKey t == dedupKey u) = some u := by
  induction l generalizing seen with
  | nil => simp [removeDupAux] at hu
  | cons w ws ih =>
    by_cases h : dedupKey w ∈ seen
    · rw [removeDupAux, if_pos h] at hu
      have hne : dedupKey w ≠ dedupKey u := by
        have hnot := removeDupAux_key_not_seen hu
        intro hEq
        exact hnot (hEq ▸ h)
      rw [List.find?_cons_of_neg _ (by simpa using hne)]
      exact ih hu
    · rw [removeDupAux, if_neg h] at hu
      rcases List.mem_cons.mp hu with rfl | hu2
      · rw [List.find?_cons_of_pos _ (by simp)]
      · have hne : dedupKey w ≠ dedupKey u := by
          have hnot := removeDupAux_key_not_seen hu2
          intro hEq
          exact hnot (by rw [← hEq]; exact List.mem_cons_self _ _)
        rw [List.find?_cons_of_neg _ (by simpa using hne)]
        exact ih hu2

/-- Claim C4: deduplication keys each candidate by its lower-cased title and
lower-cased primary artist name; any two output entries differ on that
(title, artist) pair, every input candidate is represented in the output by
an entry with its key, each output entry is the first input entry carrying
its key (first occurrence wins, in the merged order), and the output is a
subsequence of the input (nothing invented or reordered). -/
theorem C4_dedup (tracks : List ScoredTrack) :
    (removeDuplicateTracks tracks).Sublist tracks ∧
    (removeDuplicateTracks tracks).Pairwise
      (fun a b => ¬(jsToLower a.track.name = jsToLower b.track.name ∧
        jsToLower a.track.artistName = jsToLower b.track.artistName)) ∧
    (∀ t ∈ tracks, ∃ u ∈ removeDuplicateTracks tracks, dedupKey u = dedupKey t) ∧
    (∀ u ∈ removeDuplicateTracks tracks,
      tracks.find? (fun t => dedupKey t == dedupKey u) = some u) := by
  refine ⟨removeDupAux_sublist [] tracks, ?_, ?_, ?_⟩
  · refine (removeDupAux_pairwise [] tracks).imp ?_
    intro a b hne hpair
    exact hne (by rw [dedupKey, dedupKey, hpair.1, hpair.2])
  · intro t ht
    exact removeDupAux_complete ht (by simp)
  · intro u hu
    exact removeDupAux_first hu

theorem C4_dedup_witness :
    (removeDuplicateTracks [cA5, cB5, cA5]).Sublist [cA5, cB5, cA5] ∧
    (∃ u ∈ removeDuplicateTracks [cA5, cB5, cA5], dedupKey u = dedupKey cA5) ∧
    List.find? (fun t => dedupKey t == dedupKey cB5) [cA5, cB5, cA5] = some cB5 := by
  have hBA : dedupKey cB5 ≠ dedupKey cA5 := by decide
  refine ⟨(C4_dedup [cA5, cB5, cA5]).1,
    (C4_dedup [cA5, cB5, cA5]).2.2.1 cA5 (by simp),
    (C4_dedup [cA5, cB5, cA5]).2.2.2 cB5 ?_⟩
  simp [removeDuplicateTracks, removeDupAux, hBA]

/-! ### Claim C5: ranking -/

theorem insertBS_perm (t : ScoredTrack) (l : List ScoredTrack) :
    (insertBySimilarity t l).Perm (t :: l) := by
  induction l with
  | nil => simp [insertBySimilarity]
  | cons u us ih =>
    simp only [insertBySimilarity]
    split_ifs with h
    · exact (ih.cons u).trans (List.Perm.swap t u us)
    · exact List.Perm.refl _

theorem insertBS_mem {t : ScoredTrack} {l : List ScoredTrack} {b : ScoredTrack}
    (hb : b ∈ insertBySimilarity t l) : b = t ∨ b ∈ l := by
  have := (insertBS_perm t l).mem_iff.mp hb
  simpa using this

theorem insertBS_sorted (t : ScoredTrack) {l : List ScoredTrack}
    (h : l.Sorted (fun a b : ScoredTrack => b.similarity ≤ a.similarity)) :
    (insertBySimilarity t l).Sorted (fun a b : ScoredTrack => b.similarity ≤ a.similarity) := by
  induction l with
  | nil => simp [insertBySimilarity]
  | cons u us ih =>
    rw [List.sorted_cons] at h
    simp only [insertBySimilarity]
    split_ifs with hlt
    · rw [List.sorted_cons]
      refine ⟨?_, ih h.2⟩
      intro b hb
      rcases insertBS_mem hb with rfl | hbus
      · exact le_of_lt hlt
      · exact h.1 b hbus
    · rw [List.sorted_cons]
      refine ⟨?_, List.sorted_cons.mpr h⟩
      intro b hb
      rcases List.mem_cons.mp hb with rfl | hbus
      · exact le_of_not_lt hlt
      · exact le_trans (h.1 b hbus) (le_of_not_lt hlt)

theorem sortBS_sorted (l : List ScoredTrack) :
    (sortBySimilarityDesc l).Sorted (fun a b : ScoredTrack => b.similarity ≤ a.similarity) := by
  induction l with
  | nil => simp [sortBySimilarityDesc]
  | cons t ts ih => exact insertBS_sorted t ih

theorem sortBS_perm (l : List ScoredTrack) : (sortBySimilarityDesc l).Perm l := by
  induction l with
  | nil => exact List.Perm.refl _
  | cons t ts ih => exact (insertBS_perm t _).trans (ih.cons t)

theorem insertBS_filter (t : ScoredTrack) (l : List ScoredTrack) (s : ℚ) :
    (insertBySimilarity t l).filter (fun v => decide (v.similarity = s)) =
      if t.similarity = s
      then t :: l.filter (fun v => decide (v.similarity = s))
      else l.filter (fun v => decide (v.similarity = s)) := by
  induction l with
  | nil => by_cases hts : t.similarity = s <;>
      simp [insertBySimilarity, List.filter, hts]
  | cons u us ih =>
    simp only [insertBySimilarity]
    by_cases hlt : t.similarity < u.similarity
    · rw [if_pos hlt]
      by_cases hts : t.similarity = s
      · have hus : ¬ (u.similarity = s) := by
          intro hu
          rw [hts, hu] at hlt
          exact lt_irrefl _ hlt
        simp [List.filter_cons, hus, hts, ih]
      · simp [List.filter_cons, hts, ih]
    · rw [if_neg hlt]
      by_cases hts : t.similarity = s <;> simp [List.filter_cons, hts]

theorem sortBS_filter (l : List ScoredTrack) (s : ℚ) :
    (sortBySimilarityDesc l).filter (fun v => decide (v.similarity = s)) =
      l.filter (fun v => decide (v.similarity = s)) := by
  induction l with
  | nil => rfl
  | cons t ts ih =>
    have : sortBySimilarityDesc (t :: ts) = insertBySimilarity t (sortBySimilarityDesc ts) := rfl
    rw [this, insertBS_filter]
    by_cases hts : t.similarity = s
    · simp [List.filter_cons, hts, ih]
    · simp [List.filter_cons, hts, ih]

/-- Counterexample to Claim C5: two candidates with equal similarity from the
same strategy, whose identifiers are ordered against their input order.  The
ranking keeps the input order (stable sort on similarity only), so among ties
identifiers are not ascending, the result is not sorted for the claimed
score/priority/identifier order, and the same unordered input presented in a
different order yields a different output. -/
theorem C5_counterexample :
    cB5.similarity = cA5.similarity ∧
    cA5.track.id.data < cB5.track.id.data ∧
    sortBySimilarityDesc [cB5, cA5] = [cB5, cA5] ∧
    sortBySimilarityDesc [cB5, cA5] ≠ sortBySimilarityDesc [cA5, cB5] ∧
    ¬ (sortBySimilarityDesc [cB5, cA5]).Sorted (claimRankOrder (fun _ => 0)) := by
  have hAB : cA5 ≠ cB5 := by
    intro h
    exact absurd (congrArg (fun v => v.track.id) h) (by decide)
  have hsortBA : sortBySimilarityDesc [cB5, cA5] = [cB5, cA5] := by
    simp [sortBySimilarityDesc, insertBySimilarity, cA5, cB5]
  have hsortAB : sortBySimilarityDesc [cA5, cB5] = [cA5, cB5] := by
    simp [sortBySimilarityDesc, insertBySimilarity, cA5, cB5]
  refine ⟨rfl, by decide, hsortBA, ?_, ?_⟩
  · rw [hsortBA, hsortAB]
    intro h
    exact hAB (List.head_eq_of_cons_eq h.symm)
  · rw [hsortBA]
    intro h
    have hba := (List.pairwise_cons.mp h).1 cA5 (List.mem_cons_self _ _)
    rcases hba with hlt | ⟨_, hp | ⟨_, hle⟩⟩
    · exact absurd hlt (by simp [cA5, cB5])
    · exact absurd hp (lt_irrefl 0)
    · exact absurd hle (by decide)

/-- Claim C5, amended: the ranking sorts the scored candidates descending by
similarity score and by nothing else — it is a stable sort of the merged
list, so ties keep their merged-order position (strategy priority order,
then within-strategy order); candidate identifiers are never consulted, and
the output is determined by the input list (permuting tied candidates in the
input permutes them in the output, as the counterexample shows).  Formally:
the output is sorted descending by similarity, is a permutation of the
input, and for every score value the candidates attaining it appear in their
input order (filter-stability). -/
theorem C5_amended_ranking (l : List ScoredTrack) :
    (sortBySimilarityDesc l).Sorted (fun a b : ScoredTrack => b.similarity ≤ a.similarity) ∧
    (sortBySimilarityDesc l).Perm l ∧
    ∀ s : ℚ, (sortBySimilarityDesc l).filter (fun v => decide (v.similarity = s)) =
      l.filter (fun v => decide (v.similarity = s)) :=
  ⟨sortBS_sorted l, sortBS_perm l, fun s => sortBS_filter l s⟩

/-! ### Claim C6: the seed track is excluded -/

theorem strategyStep_mem {o : Track} {f : Features} {fe : String → FetchOutcome}
    {acc : List ScoredTrack} {s : SearchStrategy} {st : ScoredTrack}
    (h : st ∈ strategyStep o f fe acc s) : st ∈ acc ∨ st.track.id ≠ o.id := by
  unfold strategyStep at h
  rcases hfe : fe s.query with msg | _ | items <;> rw [hfe] at h
  · exact Or.inl h
  · exact Or.inl h
  · simp only [List.mem_append, List.mem_map, List.mem_filter] at h
    rcases h with h | ⟨track, ⟨_, htr⟩, rfl⟩
    · exact Or.inl h
    · exact Or.inr (by simpa using htr)

theorem foldl_step_mem {o : Track} {f : Features} {fe : String → FetchOutcome} :
    ∀ (strategies : List SearchStrategy) (acc : List ScoredTrack) (st : ScoredTrack),
      st ∈ strategies.foldl (strategyStep o f fe) acc → st ∈ acc ∨ st.track.id ≠ o.id := by
  intro strategies
  induction strategies with
  | nil =>
    intro acc st h
    rw [List.foldl_nil] at h
    exact Or.inl h
  | cons s ss ih =>
    intro acc st h
    rw [List.foldl_cons] at h
    rcases ih _ st h with hmem | hne
    · exact strategyStep_mem hmem
    · exact Or.inr hne

/-- Claim C6: for every seed track, feature vector and catalog environment,
no candidate produced by `findSimilarTracksViaSpotify` carries the seed
track's identifier — each strategy's results are filtered by identifier
before they are collected, and the later stages only remove or reorder. -/
theorem C6_seed_excluded (originalTrack : Track) (audioFeatures : Features)
    (fetch : String → FetchOutcome) :
    ∀ st ∈ findSimilarTracksViaSpotify originalTrack audioFeatures fetch,
      st.track.id ≠ originalTrack.id := by
  intro st hst
  simp only [findSimilarTracksViaSpotify] at hst
  have h1 : st ∈ sortBySimilarityDesc (removeDuplicateTracks
      ((searchStrategies originalTrack audioFeatures).foldl
        (strategyStep originalTrack audioFeatures fetch) [])) :=
    (List.take_sublist _ _).subset hst
  have h2 : st ∈ removeDuplicateTracks
      ((searchStrategies originalTrack audioFeatures).foldl
        (strategyStep originalTrack audioFeatures fetch) []) :=
    (sortBS_perm _).subset h1
  have h3 : st ∈ (searchStrategies originalTrack audioFeatures).foldl
      (strategyStep originalTrack audioFeatures fetch) [] :=
    (removeDupAux_sublist _ _).subset h2
  rcases foldl_step_mem _ _ _ h3 with h | h
  · simp at h
  · exact h

/-- Evaluation of the pipeline on the stub catalog: every strategy returns
the single candidate `candW`, the five tagged copies share one dedup key, so
the copy from the first strategy is the one that survives. -/
theorem pipelineW_eval : findSimilarTracksViaSpotify trackEx0 featEx fetchW = [stW] := by
  have hid : (candW.id != trackEx0.id) = true := by decide
  simp [findSimilarTracksViaSpotify, searchStrategies, trackEx0, strategyStep, fetchW,
    hid, removeDuplicateTracks, removeDupAux, sortBySimilarityDesc, insertBySimilarity,
    dedupKey, stW, List.take]

theorem C6_seed_excluded_witness :
    stW ∈ findSimilarTracksViaSpotify trackEx0 featEx fetchW ∧
    stW.track.id ≠ trackEx0.id :=
  ⟨by rw [pipelineW_eval]; exact List.mem_singleton_self stW,
    C6_seed_excluded trackEx0 featEx fetchW stW
      (by rw [pipelineW_eval]; exact List.mem_singleton_self stW)⟩

/-! ### Claim C7: per-strategy failures are absorbed -/

theorem foldl_step_allFail {o : Track} {f : Features} {fe : String → FetchOutcome}
    (hfail : ∀ q items, fe q ≠ FetchOutcome.ok items) :
    ∀ (strategies : List SearchStrategy) (acc : List ScoredTrack),
      strategies.foldl (strategyStep o f fe) acc = acc := by
  intro strategies
  induction strategies with
  | nil => intro acc; rfl
  | cons s ss ih =>
    intro acc
    rw [List.foldl_cons]
    have hstep : strategyStep o f fe acc s = acc := by
      unfold strategyStep
      rcases hq : fe s.query with msg | _ | items
      · rfl
      · rfl
      · exact absurd hq (hfail _ _)
    rw [hstep]
    exact ih acc

/-- Claim C7: an individual strategy whose catalog query fails (rejected
promise or non-ok response) contributes zero candidates (its loop iteration
leaves the accumulator unchanged); when the seed track is fetched
successfully the `/api/similar-song` resolution never surfaces an error —
in particular, if every strategy query fails the route answers an empty
list as a non-error success; only a failed seed fetch is fatal (it produces
the route's error response). -/
theorem C7_failures_absorbed :
    (∀ (o : Track) (f : Features) (fe : String → FetchOutcome)
        (acc : List ScoredTrack) (s : SearchStrategy),
      (∀ items, fe s.query ≠ FetchOutcome.ok items) →
        strategyStep o f fe acc s = acc) ∧
    (∀ (rnd : ℕ → ℚ) (originalTrack : Track) (fetch : String → FetchOutcome),
      ∃ l, similarSongRoute rnd (.ok originalTrack) fetch = .ok l) ∧
    (∀ (rnd : ℕ → ℚ) (originalTrack : Track) (fetch : String → FetchOutcome),
      (∀ q items, fetch q ≠ FetchOutcome.ok items) →
        similarSongRoute rnd (.ok originalTrack) fetch = .ok []) ∧
    (∀ (rnd : ℕ → ℚ) (e : String) (fetch : String → FetchOutcome),
      similarSongRoute rnd (.error e) fetch = .error e) := by
  refine ⟨?_, fun rnd o fetch => ⟨_, rfl⟩, ?_, fun rnd e fetch => rfl⟩
  · intro o f fe acc s hfail
    unfold strategyStep
    rcases hq : fe s.query with msg | _ | items
    · rfl
    · rfl
    · exact absurd hq (hfail _)
  intro rnd o fetch hfail
  have hempty : findSimilarTracksViaSpotify o (getIntelligentFeatures o rnd) fetch = [] := by
    simp only [findSimilarTracksViaSpotify]
    rw [foldl_step_allFail hfail]
    rfl
  simp [similarSongRoute, hempty]

theorem C7_failures_absorbed_witness :
    strategyStep trackEx0 featEx (fun _ => FetchOutcome.notOk) []
        { query := "q", description := "d" } = [] ∧
    similarSongRoute (fun _ => (1:ℚ)/2) (.ok trackEx0) (fun _ => FetchOutcome.notOk)
        = .ok [] ∧
    similarSongRoute (fun _ => (1:ℚ)/2) (.error "NotFound") (fun _ => FetchOutcome.notOk)
        = .error "NotFound" :=
  ⟨C7_failures_absorbed.1 trackEx0 featEx (fun _ => FetchOutcome.notOk) []
      { query := "q", description := "d" } (fun items h => FetchOutcome.noConfusion h),
    C7_failures_absorbed.2.2.1 (fun _ => (1:ℚ)/2) trackEx0 (fun _ => FetchOutcome.notOk)
      (fun q items h => FetchOutcome.noConfusion h),
    C7_failures_absorbed.2.2.2 (fun _ => (1:ℚ)/2) "NotFound" (fun _ => FetchOutcome.notOk)⟩

/-! ### Claim C8: no InvalidInput validation of the desired count -/

theorem jsMinInt_zero_len (n : ℕ) : jsMinInt 0 (n : ℤ) = 0 := by
  unfold jsMinInt
  rw [if_pos (Int.natCast_nonneg n)]

/-- With a desired count of 0 the recommendations route still proceeds (seed
fetch, feature estimation and strategy queries all run) and answers
`slice(0, min(0, length)) = []` as a success. -/
theorem recommendations_limit_zero (rnd : ℕ → ℚ) (sid : String) (trackData : Track)
    (fetch : String → FetchOutcome) :
    recommendationsRoute rnd (some sid) 0 (.ok trackData) fetch = .ok [] := by
  simp only [recommendationsRoute]
  rw [jsMinInt_zero_len]
  rfl

/-- Counterexample to Claim C8: a request with desired count 0 (seed fetch
succeeding, every strategy returning a candidate) is not rejected with an
`InvalidInput` error — no such validation exists anywhere in the code — but
returns the empty list as a non-error success. -/
theorem C8_counterexample :
    recommendationsRoute (fun _ => (1:ℚ)/2) (some "seed0") 0 (.ok trackEx0) fetchW
      = .ok [] :=
  recommendations_limit_zero (fun _ => (1:ℚ)/2) "seed0" trackEx0 fetchW

/-- Claim C8, amended: a resolution request with desired count 0 is not
rejected before work begins — the code performs no validation of the count —
and instead runs the full pipeline and returns an empty result list as a
success; only a missing `seed_tracks` parameter or a throwing seed fetch
produce errors. -/
theorem C8_amended_no_validation (rnd : ℕ → ℚ) (sid : String) (trackData : Track)
    (fetch : String → FetchOutcome) :
    recommendationsRoute rnd (some sid) 0 (.ok trackData) fetch = .ok [] ∧
    recommendationsRoute rnd none 0 (.ok trackData) fetch
      = .error "seed_tracks parameter required" :=
  ⟨recommendations_limit_zero rnd sid trackData fetch, rfl⟩

/-! ### Claim C9: the strategy loop is sequential, not concurrent -/

theorem foldl_stepT (o : Track) (f : Features) (fe : String → FetchOutcome) :
    ∀ (strategies : List SearchStrategy) (acc : List QueryEv × List ScoredTrack),
      (strategies.foldl (strategyStepT o f fe) acc).1
          = acc.1 ++ (strategies.map
              (fun s => [QueryEv.issue s.query, QueryEv.complete s.query])).flatten ∧
      (strategies.foldl (strategyStepT o f fe) acc).2
          = strategies.foldl (strategyStep o f fe) acc.2 := by
  intro strategies
  induction strategies with
  | nil => intro acc; simp
  | cons s ss ih =>
    intro acc
    rw [List.foldl_cons, List.foldl_cons]
    obtain ⟨h1, h2⟩ := ih (strategyStepT o f fe acc s)
    refine ⟨?_, ?_⟩
    · rw [h1]
      simp [strategyStepT, List.append_assoc]
    · rw [h2]
      rfl

/-- Counterexample to Claim C9: on a concrete seed track the execution trace
is not fan-out/fan-in shaped — already the second strategy's query is issued
only after the first strategy's query has completed, so not every issue
precedes every completion. -/
theorem C9_counterexample :
    issuesAllFirst (findSimilarTracksTrace trackEx0 featEx fetchW).1 = false := by
  obtain ⟨h1, _⟩ := foldl_stepT trackEx0 featEx fetchW (searchStrategies trackEx0 featEx)
    ([], [])
  simp only [findSimilarTracksTrace]
  rw [h1]
  simp [searchStrategies, trackEx0, issuesAllFirst, isIssueEv, List.flatten,
    List.dropWhile, List.any]

/-- Claim C9, amended: the strategy loop is sequential, not concurrent — the
execution trace of one resolution is exactly
issue₁, complete₁, issue₂, complete₂, …, issueₙ, completeₙ, rank: each
strategy's catalog query is issued only after the previous strategy's query
has completed, and ranking happens after the last completion (the fan-in
position is as claimed, the fan-out does not exist); the instrumented loop
computes the same candidates as the plain one. -/
theorem C9_amended_sequential (originalTrack : Track) (audioFeatures : Features)
    (fetch : String → FetchOutcome) :
    (findSimilarTracksTrace originalTrack audioFeatures fetch).1 =
      ((searchStrategies originalTrack audioFeatures).map
        (fun s => [QueryEv.issue s.query, QueryEv.complete s.query])).flatten
        ++ [QueryEv.rank] ∧
    (findSimilarTracksTrace originalTrack audioFeatures fetch).2 =
      findSimilarTracksViaSpotify originalTrack audioFeatures fetch := by
  obtain ⟨h1, h2⟩ := foldl_stepT originalTrack audioFeatures fetch
    (searchStrategies originalTrack audioFeatures) ([], [])
  constructor
  · simp only [findSimilarTracksTrace]
    rw [h1]
    simp
  · simp only [findSimilarTracksTrace, findSimilarTracksViaSpotify]
    rw [h2]
